import Mathlib

/-!
Verification development for the image-prompt MCP server.

This file gives a shallow embedding, in Lean, of the parameter-resolution,
prompt-assembly, capability-negotiation and request-orchestration pipeline
of the repository (src/tools/prompts.ts, src/tools/images.ts,
src/sampling/checker.ts, src/sampling/handler.ts, src/tools/templates.ts),
and proves or refutes the frozen claims about that pipeline.

Conventions of the embedding:
- A JavaScript object key that may be absent is an Option; some v means the
  key is present with value v, none means the key is absent (or undefined,
  since the inputs come from JSON where an explicit undefined cannot occur).
- A thrown exception is an Except error; promise rejection is the same.
- JavaScript truthiness of a string-or-undefined value is jsTruthy.
-/

namespace ImagePromptMcp

/-- Decidable equality for Except, so that concrete runs of the embedded
functions can be checked by decide. -/
instance {ε α : Type} [DecidableEq ε] [DecidableEq α] : DecidableEq (Except ε α) := fun x y =>
  match x, y with
  | .error a, .error b =>
    if h : a = b then .isTrue (congrArg Except.error h)
    else .isFalse (fun hh => h (Except.error.inj hh))
  | .ok a, .ok b =>
    if h : a = b then .isTrue (congrArg Except.ok h)
    else .isFalse (fun hh => h (Except.ok.inj hh))
  | .error _, .ok _ => .isFalse (fun hh => Except.noConfusion hh)
  | .ok _, .error _ => .isFalse (fun hh => Except.noConfusion hh)

/-- A JSON value in a slot position, as seen by the zod validator of
generatePrompt before validation: either a string or some non-string value
(the validator only distinguishes these two cases). -/
inductive JVal where
  | str (s : String)
  | nonStr
deriving DecidableEq, Repr

/-- JavaScript truthiness of an optional string (undefined and the empty
string are falsy, every other string is truthy). -/
def jsTruthy : Option String → Bool
  | some s => s ≠ ""
  | none => false

/-- The eleven prompt slots as a raw JavaScript object, before zod
validation (the argument of generatePrompt in src/tools/prompts.ts).
Each field models a possibly absent object key. -/
structure RawParams where
  subject : Option JVal := none
  action : Option JVal := none
  environment : Option JVal := none
  cameraAngle : Option JVal := none
  style : Option JVal := none
  details : Option JVal := none
  lighting : Option JVal := none
  mood : Option JVal := none
  technical : Option JVal := none
  quality : Option JVal := none
  negativePrompt : Option JVal := none
deriving DecidableEq, Repr

/-- Template parameters at runtime (src/models/template.ts,
TemplateParametersSchema). The static TypeScript type makes subject a
required string, but the updateTemplate handler stores caller-supplied
objects through a cast, so at runtime subject may be absent; the schema
validator (validateTemplateParameters below) is what enforces presence. -/
structure TemplateParameters where
  subject : Option String := none
  action : Option String := none
  environment : Option String := none
  cameraAngle : Option String := none
  style : Option String := none
  details : Option String := none
  lighting : Option String := none
  mood : Option String := none
  technical : Option String := none
  quality : Option String := none
  negativePrompt : Option String := none
deriving DecidableEq, Repr

/-- TemplateParametersSchema of src/models/template.ts: subject must be a
string (emptiness is not checked there); all other slots are optional
strings, which the typed representation already guarantees. -/
def validateTemplateParameters (p : TemplateParameters) : Bool :=
  p.subject.isSome

/-- View a typed template-parameter record as a raw JavaScript object
(every present slot holds a string value). -/
def TemplateParameters.toRaw (t : TemplateParameters) : RawParams :=
  { subject := t.subject.map JVal.str
    action := t.action.map JVal.str
    environment := t.environment.map JVal.str
    cameraAngle := t.cameraAngle.map JVal.str
    style := t.style.map JVal.str
    details := t.details.map JVal.str
    lighting := t.lighting.map JVal.str
    mood := t.mood.map JVal.str
    technical := t.technical.map JVal.str
    quality := t.quality.map JVal.str
    negativePrompt := t.negativePrompt.map JVal.str }

/-- One key of a JavaScript object spread: in an object literal
of the form with the defaults spread first and the overrides spread second,
the override key wins whenever it is present, else the default is taken. -/
def jsSpread (override dflt : Option JVal) : Option JVal :=
  match override with
  | some v => some v
  | none => dflt

/-- The merge step of generatePrompt (src/tools/prompts.ts, lines 194-202):
when a template is given the merged object spreads the template parameters
first and the caller parameters second, so every key present in the caller
parameters shadows the template default; without a template the caller
parameters pass through unchanged. -/
def mergedParams (params : RawParams) (template : Option TemplateParameters) : RawParams :=
  match template with
  | none => params
  | some t =>
    { subject := jsSpread params.subject (t.subject.map JVal.str)
      action := jsSpread params.action (t.action.map JVal.str)
      environment := jsSpread params.environment (t.environment.map JVal.str)
      cameraAngle := jsSpread params.cameraAngle (t.cameraAngle.map JVal.str)
      style := jsSpread params.style (t.style.map JVal.str)
      details := jsSpread params.details (t.details.map JVal.str)
      lighting := jsSpread params.lighting (t.lighting.map JVal.str)
      mood := jsSpread params.mood (t.mood.map JVal.str)
      technical := jsSpread params.technical (t.technical.map JVal.str)
      quality := jsSpread params.quality (t.quality.map JVal.str)
      negativePrompt := jsSpread params.negativePrompt (t.negativePrompt.map JVal.str) }

/-- A zod validation issue, abstracting the issue list of a ZodError:
invalidType covers a non-string value (or a missing required subject),
tooSmall covers the min-length-1 check on subject. -/
inductive ZodIssue where
  | invalidType (slot : String)
  | tooSmall (slot : String)
deriving DecidableEq, Repr

/-- Rendering of a zod issue into the thrown error message; the exact JSON
layout produced by ZodError.message is abstracted to the issue kind and the
offending slot. -/
def zodIssueText : ZodIssue → String
  | .invalidType slot => "invalid_type at " ++ slot
  | .tooSmall slot => "too_small at " ++ slot

/-- The parameters of generatePrompt after zod validation
(PromptGenerationParams of src/tools/prompts.ts): subject is a string,
every other slot an optional string; note that the zod schema does not
forbid empty strings in the optional slots. -/
structure ValidatedParams where
  subject : String
  action : Option String := none
  environment : Option String := none
  cameraAngle : Option String := none
  style : Option String := none
  details : Option String := none
  lighting : Option String := none
  mood : Option String := none
  technical : Option String := none
  quality : Option String := none
  negativePrompt : Option String := none
deriving DecidableEq, Repr

/-- Validation of the required subject slot: zod requires a string
of length at least 1 (subject is declared string min 1). -/
def parseSubject (v : Option JVal) : Except ZodIssue String :=
  match v with
  | none => .error (.invalidType "subject")
  | some .nonStr => .error (.invalidType "subject")
  | some (.str s) => if 1 ≤ s.length then .ok s else .error (.tooSmall "subject")

/-- Validation of an optional slot: absent stays absent, a string passes
through (including the empty string), a non-string is rejected. -/
def parseOptStr (slot : String) (v : Option JVal) : Except ZodIssue (Option String) :=
  match v with
  | none => .ok none
  | some (.str s) => .ok (some s)
  | some .nonStr => .error (.invalidType slot)

/-- PromptGenerationParams.parse of src/tools/prompts.ts applied to the
merged object: validates all eleven slots, producing the typed record or
the first zod issue. -/
def parsePromptParams (p : RawParams) : Except ZodIssue ValidatedParams :=
  match parseSubject p.subject with
  | .error e => .error e
  | .ok subj =>
  match parseOptStr "action" p.action with
  | .error e => .error e
  | .ok act =>
  match parseOptStr "environment" p.environment with
  | .error e => .error e
  | .ok env =>
  match parseOptStr "cameraAngle" p.cameraAngle with
  | .error e => .error e
  | .ok cam =>
  match parseOptStr "style" p.style with
  | .error e => .error e
  | .ok sty =>
  match parseOptStr "details" p.details with
  | .error e => .error e
  | .ok det =>
  match parseOptStr "lighting" p.lighting with
  | .error e => .error e
  | .ok lig =>
  match parseOptStr "mood" p.mood with
  | .error e => .error e
  | .ok moo =>
  match parseOptStr "technical" p.technical with
  | .error e => .error e
  | .ok tec =>
  match parseOptStr "quality" p.quality with
  | .error e => .error e
  | .ok qua =>
  match parseOptStr "negativePrompt" p.negativePrompt with
  | .error e => .error e
  | .ok neg =>
    .ok { subject := subj, action := act, environment := env, cameraAngle := cam
          style := sty, details := det, lighting := lig, mood := moo
          technical := tec, quality := qua, negativePrompt := neg }

/-- One labeled component of the prompt, modelling the JavaScript
expression that conjoins the slot value with its labeled rendering and the
later filter on truthiness: an absent slot or an empty slot value yields no
component, a non-empty value yields the labeled string. -/
def jsAndLabel (label : String) (v : Option String) : Option String :=
  match v with
  | none => none
  | some s => if s = "" then none else some (label ++ ": " ++ s)

/-- The component list built by generatePrompt (src/tools/prompts.ts,
lines 208-224): the raw subject followed by the nine labeled optional
slots in source order, with falsy entries removed by the filter. -/
def components (v : ValidatedParams) : List String :=
  ([ if v.subject = "" then none else some v.subject,
     jsAndLabel "action" v.action,
     jsAndLabel "environment" v.environment,
     jsAndLabel "camera" v.cameraAngle,
     jsAndLabel "style" v.style,
     jsAndLabel "details" v.details,
     jsAndLabel "lighting" v.lighting,
     jsAndLabel "mood" v.mood,
     jsAndLabel "technical" v.technical,
     jsAndLabel "quality" v.quality ] : List (Option String)).filterMap id

/-- The result record of generatePrompt: the joined prompt and the
optional negative prompt field. -/
structure PromptResult where
  prompt : String
  negativePrompt : Option String := none
deriving DecidableEq, Repr

/-- generatePrompt of src/tools/prompts.ts: merge the template defaults
with the caller parameters, validate the merged object, build the joined
prompt, and attach the negative prompt as a separate field when it is
truthy. A zod failure is rethrown as an error whose message carries the
validation-failure prefix. -/
def generatePrompt (params : RawParams) (template : Option TemplateParameters) :
    Except String PromptResult :=
  match parsePromptParams (mergedParams params template) with
  | .error zi => .error ("提示词生成参数验证失败: " ++ zodIssueText zi)
  | .ok v =>
    .ok { prompt := String.intercalate ", " (components v)
          negativePrompt := match v.negativePrompt with
            | some s => if s = "" then none else some s
            | none => none }

/-! Capability negotiation (src/sampling/checker.ts). -/

/-- The runtime shape of a sampling capability declaration
(capabilities.sampling), after the null and undefined cases have been
split off: either an array of feature names, or an object whose includes
member is a feature probe when it is a callable function and absent
otherwise (the obj case with a none probe also covers non-array,
non-null primitive values, on which the property access likewise yields
undefined). maxTokens and models are the optional extra members read in
the object case. -/
inductive SamplingDecl where
  | arr (features : List String)
  | obj (includes : Option (String → Bool)) (maxTokens : Option Nat) (models : Option (List String))

/-- The client capability object: only the sampling key is interpreted;
none covers both an absent and a null sampling key, either of which makes
the optional chaining of the checker yield undefined. -/
structure ClientCapabilities where
  sampling : Option SamplingDecl := none

/-- checkSamplingSupport of src/sampling/checker.ts. The argument models
the chained access to the capabilities object of the request extra: none
covers a null extra, a missing meta object and a missing capabilities
object alike. Calling the includes member when the sampling value is an
object without a callable includes raises a TypeError, modelled as the
error case. -/
def checkSamplingSupport (caps : Option ClientCapabilities) : Except String Bool :=
  match caps with
  | none => .ok false
  | some c =>
    match c.sampling with
    | none => .ok false
    | some (.arr features) => .ok (features.contains "createMessage")
    | some (.obj includes _ _) =>
      match includes with
      | some probe => .ok (probe "createMessage")
      | none => .error "TypeError: sampling.includes is not a function"

/-- The result record of checkDetailedSamplingCapabilities
(SamplingCapabilities of src/sampling/checker.ts). -/
structure SamplingCapabilities where
  supportsCreateMessage : Bool
  supportsImages : Bool
  maxTokens : Option Nat := none
  supportedModels : Option (List String) := none
deriving DecidableEq, Repr

/-- checkDetailedSamplingCapabilities of src/sampling/checker.ts, with the
same TypeError behaviour as checkSamplingSupport on an object-shaped
sampling value without a callable includes member. -/
def checkDetailedSamplingCapabilities (caps : Option ClientCapabilities) :
    Except String SamplingCapabilities :=
  match caps with
  | none => .ok { supportsCreateMessage := false, supportsImages := false }
  | some c =>
    match c.sampling with
    | none => .ok { supportsCreateMessage := false, supportsImages := false }
    | some (.arr features) =>
      .ok { supportsCreateMessage := features.contains "createMessage"
            supportsImages := features.contains "image" }
    | some (.obj includes maxTokens models) =>
      match includes with
      | some probe =>
        .ok { supportsCreateMessage := probe "createMessage"
              supportsImages := probe "image"
              maxTokens := maxTokens
              supportedModels := models }
      | none => .error "TypeError: sampling.includes is not a function"

/-! Sampling request handling (src/sampling/handler.ts). -/

/-- MessageContent of src/sampling/handler.ts. -/
structure MessageContent where
  type : String
  text : Option String := none
  data : Option String := none
  mimeType : Option String := none
deriving DecidableEq, Repr

/-- Message of src/sampling/handler.ts. -/
structure Message where
  role : String
  content : MessageContent
deriving DecidableEq, Repr

/-- The metadata bag the image tool sends with its sampling request. -/
structure SamplingMetadata where
  negativePrompt : Option String := none
  width : Nat
  height : Nat
  samplingSteps : Nat
deriving DecidableEq, Repr

/-- SamplingCreateMessageRequest, restricted to the members the image tool
populates (messages and metadata); the unused optional knobs are omitted. -/
structure SamplingCreateMessageRequest where
  messages : List Message
  metadata : SamplingMetadata
deriving DecidableEq, Repr

/-- SamplingCreateMessageResponse of src/sampling/handler.ts. -/
structure SamplingCreateMessageResponse where
  model : String
  stopReason : String
  role : String
  content : MessageContent
deriving DecidableEq, Repr

/-- The createMessage capability of the server: a single outbound call
that either resolves with a response or rejects with an error message. -/
def SamplingFn : Type :=
  SamplingCreateMessageRequest → Except String SamplingCreateMessageResponse

/-- handleSamplingRequest of src/sampling/handler.ts, paired with the
number of outbound createMessage invocations it performs: when the server
exposes no createMessage capability it throws without calling out; when
the single outbound call rejects, the cause is rewrapped with the
handling-failure prefix. A resolved-but-null response cannot occur in the
typed model and is not represented. -/
def handleSamplingRequest (serverSampling : Option SamplingFn)
    (request : SamplingCreateMessageRequest) :
    Except String SamplingCreateMessageResponse × Nat :=
  match serverSampling with
  | none => (.error "服务器不支持 sampling 功能", 0)
  | some createMessage =>
    match createMessage request with
    | .error msg => (.error ("Sampling 请求处理失败: " ++ msg), 1)
    | .ok response => (.ok response, 1)

/-! Template storage (src/tools/templates.ts, src/models/template.ts). -/

/-- The closed template category set of src/models/template.ts. -/
inductive TemplateCategory where
  | childrenBook
  | techDoc
  | marketing
deriving DecidableEq, Repr

/-- A stored template record (Template of src/models/template.ts);
timestamps are modelled as natural numbers. -/
structure Template where
  id : String
  name : String
  description : String
  category : TemplateCategory
  parameters : TemplateParameters
  version : Nat
  createdAt : Nat
  updatedAt : Nat
  createdBy : Option String := none
  isActive : Bool := true
deriving DecidableEq, Repr

/-- The error kinds of TemplateError (src/tools/templates.ts). -/
inductive TemplateErrorType where
  | INVALID_PARAMETERS
  | TEMPLATE_NOT_FOUND
  | INTERNAL_ERROR
deriving DecidableEq, Repr

/-- A TemplateError value: its kind and message. -/
structure TemplateError where
  type : TemplateErrorType
  message : String
deriving DecidableEq, Repr

/-- getTemplateById of src/tools/templates.ts over an explicit store list
(the source reads a module-level template list): find the first template
with the given id, then, when a truthy version is supplied, require it to
match the current stored version. -/
def getTemplateById (store : List Template) (id : String) (version : Option Nat) :
    Except TemplateError Template :=
  match store.find? (fun t => t.id = id) with
  | none => .error { type := .TEMPLATE_NOT_FOUND, message := "模板 " ++ id ++ " 不存在" }
  | some t =>
    match version with
    | some v =>
      if v ≠ 0 ∧ t.version ≠ v then
        .error { type := .TEMPLATE_NOT_FOUND
                 message := "模板 " ++ id ++ " 的版本 " ++ toString v ++ " 不存在" }
      else .ok t
    | none => .ok t

/-! The generateImage tool handler (src/tools/images.ts). -/

/-- The error kinds of ImageGenerationError (src/tools/images.ts). -/
inductive ImageGenerationErrorType where
  | INVALID_TEMPLATE
  | SAMPLING_NOT_SUPPORTED
  | SAMPLING_FAILED
  | INVALID_PARAMETERS
  | INTERNAL_ERROR
deriving DecidableEq, Repr

/-- The details payload attached to an ImageGenerationError (unknown in
the source; the handler only ever stores one of these shapes). -/
inductive ErrDetails where
  | imageGenError (type : ImageGenerationErrorType) (message : String)
  | templateError (type : TemplateErrorType) (message : String)
  | jsError (message : String)
deriving DecidableEq, Repr

/-- An ImageGenerationError value: kind, message and optional details. -/
structure ImageGenerationError where
  type : ImageGenerationErrorType
  message : String
  details : Option ErrDetails := none
deriving DecidableEq, Repr

/-- The zod-validated input of the generateImage tool
(ImageGenerationParams of src/tools/images.ts): the eleven slots are
optional strings after schema validation, and width, height and
samplingSteps carry their schema defaults. The source keeps the slots
inline on the params object; they are listed here as fields of one
record. -/
structure GenParams where
  templateId : Option String := none
  templateVersion : Option Nat := none
  subject : Option String := none
  action : Option String := none
  environment : Option String := none
  cameraAngle : Option String := none
  style : Option String := none
  details : Option String := none
  lighting : Option String := none
  mood : Option String := none
  technical : Option String := none
  quality : Option String := none
  negativePrompt : Option String := none
  width : Nat := 512
  height : Nat := 512
  samplingSteps : Nat := 20
deriving DecidableEq, Repr

/-- The eleven slots of the tool input as the raw object handed to
generatePrompt (every present slot is a string after schema validation;
the extra keys of the params object are stripped by the zod parse inside
generatePrompt and need not be represented). -/
def GenParams.toRaw (p : GenParams) : RawParams :=
  { subject := p.subject.map JVal.str
    action := p.action.map JVal.str
    environment := p.environment.map JVal.str
    cameraAngle := p.cameraAngle.map JVal.str
    style := p.style.map JVal.str
    details := p.details.map JVal.str
    lighting := p.lighting.map JVal.str
    mood := p.mood.map JVal.str
    technical := p.technical.map JVal.str
    quality := p.quality.map JVal.str
    negativePrompt := p.negativePrompt.map JVal.str }

/-- Step 1 of the generateImage handler (src/tools/images.ts, lines
331-368): template lookup and the subject requirement. The missing-subject
ImageGenerationError raised inside the template-loading try block is
caught by the catch clause of the same block, which is not a TemplateError
case, so it is rewrapped as an INTERNAL_ERROR whose details carry the
original INVALID_PARAMETERS error; only the no-template branch raises
INVALID_PARAMETERS directly. -/
def resolveTemplateStep (store : List Template) (p : GenParams) :
    Except ImageGenerationError (Option Template) :=
  match p.templateId with
  | some tid =>
    match getTemplateById store tid p.templateVersion with
    | .error te =>
      if te.type = TemplateErrorType.TEMPLATE_NOT_FOUND then
        .error { type := .INVALID_TEMPLATE, message := te.message }
      else
        .error { type := .INTERNAL_ERROR, message := "加载模板参数失败"
                 details := some (.templateError te.type te.message) }
    | .ok t =>
      if jsTruthy p.subject = false ∧ jsTruthy t.parameters.subject = false then
        .error { type := .INTERNAL_ERROR, message := "加载模板参数失败"
                 details := some (.imageGenError .INVALID_PARAMETERS
                   "必须提供主体内容 (subject) 参数") }
      else .ok (some t)
  | none =>
    if jsTruthy p.subject = false then
      .error { type := .INVALID_PARAMETERS
               message := "必须提供主体内容 (subject) 参数或者有效的模板ID" }
    else .ok none

/-- Step 2 of the generateImage handler (lines 372-377): when the caller
subject is falsy and the template default subject is truthy, copy the
template subject into the final parameters before prompt generation. -/
def injectSubject (p : GenParams) (tOpt : Option Template) : GenParams :=
  match tOpt with
  | some t =>
    if jsTruthy p.subject = false ∧ jsTruthy t.parameters.subject = true then
      { p with subject := t.parameters.subject }
    else p
  | none => p

/-- The sampling request the handler sends (lines 386-400). -/
def buildSamplingRequest (pr : PromptResult) (p : GenParams) :
    SamplingCreateMessageRequest :=
  { messages := [{ role := "user", content := { type := "text", text := some pr.prompt } }]
    metadata := { negativePrompt := pr.negativePrompt
                  width := p.width, height := p.height
                  samplingSteps := p.samplingSteps } }

/-- One item of the tool response content list. -/
inductive ContentItem where
  | text (text : String)
  | image (data : String) (mimeType : String)
deriving DecidableEq, Repr

/-- The nested parameters object of the structured content. -/
structure GenerationParameters where
  width : Nat
  height : Nat
  samplingSteps : Nat
deriving DecidableEq, Repr

/-- The usedTemplate provenance object of the structured content. -/
structure UsedTemplate where
  id : String
  name : String
  version : Nat
deriving DecidableEq, Repr

/-- The structuredContent object of the tool response; fields absent on a
given branch of the source are none. -/
structure StructuredContent where
  imageUrl : Option String := none
  prompt : String
  negativePrompt : Option String := none
  parameters : GenerationParameters
  usedTemplate : Option UsedTemplate := none
  supportsSampling : Option Bool := none
deriving DecidableEq, Repr

/-- A tool response: the content list and the structured content. -/
structure ToolResponse where
  content : List ContentItem
  structuredContent : StructuredContent
deriving DecidableEq, Repr

/-- JavaScript or-default on an optional string, as in the expression
that falls back to the png mime type: an absent or empty value yields the
default. -/
def jsOrDefault (v : Option String) (dflt : String) : String :=
  match v with
  | some s => if s = "" then dflt else s
  | none => dflt

/-- The provenance object for the responses (lines 427-431 and 476-480). -/
def usedTemplateOf (tOpt : Option Template) : Option UsedTemplate :=
  tOpt.map (fun t => { id := t.id, name := t.name, version := t.version })

/-- The success response of the sampling branch (lines 406-433). -/
def imageSuccessResponse (resp : SamplingCreateMessageResponse)
    (pr : PromptResult) (p : GenParams) (tOpt : Option Template) : ToolResponse :=
  { content := [ .image (resp.content.data.getD "") (jsOrDefault resp.content.mimeType "image/png")
               , .text "图片生成成功" ]
    structuredContent :=
      { imageUrl := resp.content.data
        prompt := pr.prompt
        negativePrompt := pr.negativePrompt
        parameters := { width := p.width, height := p.height, samplingSteps := p.samplingSteps }
        usedTemplate := usedTemplateOf tOpt } }

/-- The usedTemplate string of the fallback text (line 454). -/
def usedTemplateText (tOpt : Option Template) : String :=
  match tOpt with
  | some t => t.name ++ " (ID: " ++ t.id ++ ", 版本: " ++ toString t.version ++ ")"
  | none => "无"

/-- The two-space-indented JSON rendering of the technical parameter
object in the fallback text (string escaping inside the usedTemplate
value is not modelled). -/
def techParamsJson (width height samplingSteps : Nat) (usedTemplate : String) : String :=
  "\x7b\n  \"width\": " ++ toString width ++
  ",\n  \"height\": " ++ toString height ++
  ",\n  \"samplingSteps\": " ++ toString samplingSteps ++
  ",\n  \"usedTemplate\": \"" ++ usedTemplate ++ "\"\n\x7d"

/-- The text of the degraded text-only response (lines 443-458). -/
def fallbackText (pr : PromptResult) (p : GenParams) (tOpt : Option Template) : String :=
  "提示词生成成功（客户端不支持直接生成图片）:\n\nPrompt: " ++ pr.prompt ++
  (match pr.negativePrompt with
   | some np => "\nNegative prompt: " ++ np
   | none => "") ++
  "\n\n技术参数:\n" ++ techParamsJson p.width p.height p.samplingSteps (usedTemplateText tOpt)

/-- The degraded text-only response (lines 460-482): a single text item
and a structured content with an explicit supportsSampling false flag. -/
def fallbackResponse (pr : PromptResult) (p : GenParams) (tOpt : Option Template) :
    ToolResponse :=
  { content := [ .text (fallbackText pr p tOpt) ]
    structuredContent :=
      { prompt := pr.prompt
        negativePrompt := pr.negativePrompt
        parameters := { width := p.width, height := p.height, samplingSteps := p.samplingSteps }
        supportsSampling := some false
        usedTemplate := usedTemplateOf tOpt } }

/-- The generateImage tool handler (src/tools/images.ts, lines 329-492),
paired with the number of outbound createMessage invocations. Errors that
are not ImageGenerationErrors reach the outer catch and are rewrapped as
INTERNAL_ERROR with the generation-failure prefix: this covers a zod
failure thrown out of generatePrompt and a TypeError thrown out of
checkSamplingSupport. In the sampling branch every failure, including a
non-image or data-less response, becomes SAMPLING_FAILED carrying the
cause. -/
def generateImageHandler (store : List Template) (serverSampling : Option SamplingFn)
    (p : GenParams) (caps : Option ClientCapabilities) :
    Except ImageGenerationError ToolResponse × Nat :=
  match resolveTemplateStep store p with
  | .error e => (.error e, 0)
  | .ok tOpt =>
    match generatePrompt (injectSubject p tOpt).toRaw (tOpt.map (fun t => t.parameters)) with
    | .error msg =>
      (.error { type := .INTERNAL_ERROR, message := "图片生成失败: " ++ msg }, 0)
    | .ok pr =>
      match checkSamplingSupport caps with
      | .error msg =>
        (.error { type := .INTERNAL_ERROR, message := "图片生成失败: " ++ msg }, 0)
      | .ok supports =>
        if supports then
          match handleSamplingRequest serverSampling
              (buildSamplingRequest pr (injectSubject p tOpt)) with
          | (.error msg, n) =>
            (.error { type := .SAMPLING_FAILED, message := "图片生成失败"
                      details := some (.jsError msg) }, n)
          | (.ok resp, n) =>
            if resp.content.type != "image" || !jsTruthy resp.content.data then
              (.error { type := .SAMPLING_FAILED, message := "图片生成失败"
                        details := some (.jsError "服务器返回了非图片类型的响应") }, n)
            else
              (.ok (imageSuccessResponse resp pr (injectSubject p tOpt) tOpt), n)
        else
          (.ok (fallbackResponse pr (injectSubject p tOpt) tOpt), 0)

/-! The updateTemplate handler (src/tools/templates.ts, registerTemplateTools). -/

/-- The arguments of the updateTemplate tool; the parameters object is
the caller-supplied untyped object, stored through a cast. -/
structure UpdateArgs where
  id : String
  name : Option String := none
  description : Option String := none
  category : Option TemplateCategory := none
  parameters : Option TemplateParameters := none
  isActive : Option Bool := none

/-- The field-update step of the updateTemplate handler (lines 776-791 of
the handler source): copy each supplied field over the stored record; for
the parameters object, when the supplied subject is falsy and the stored
subject is truthy, the stored subject is written into the supplied
parameters before they replace the stored ones; finally the version is
incremented and the update time refreshed. -/
def applyUpdate (t : Template) (args : UpdateArgs) (now : Nat) : Template :=
  let t1 := match args.name with
    | some n => { t with name := n }
    | none => t
  let t2 := match args.description with
    | some d => { t1 with description := d }
    | none => t1
  let t3 := match args.category with
    | some c => { t2 with category := c }
    | none => t2
  let t4 := match args.parameters with
    | some ps =>
      if jsTruthy ps.subject = false ∧ jsTruthy t3.parameters.subject = true then
        { t3 with parameters := { ps with subject := t3.parameters.subject } }
      else
        { t3 with parameters := ps }
    | none => t3
  let t5 := match args.isActive with
    | some a => { t4 with isActive := a }
    | none => t4
  { t5 with version := t5.version + 1, updatedAt := now }

/-! Helper lemmas about the embedding. -/

/-- jsTruthy characterisation. -/
theorem jsTruthy_eq_true_iff (o : Option String) :
    jsTruthy o = true ↔ ∃ s, o = some s ∧ s ≠ "" := by
  cases o <;> simp [jsTruthy]

/-- A string has length at least one exactly when it is not empty. -/
theorem one_le_length_iff (s : String) : 1 ≤ s.length ↔ s ≠ "" := by
  cases s with
  | mk data =>
    cases data <;> simp [String.length, String.ext_iff]

/-- Characterisation of the optional-slot validator. -/
theorem parseOptStr_ok_iff (label : String) (o : Option JVal) (w : Option String) :
    parseOptStr label o = .ok w ↔ o = w.map JVal.str := by
  cases o with
  | none => cases w <;> simp [parseOptStr]
  | some jv =>
    cases jv with
    | str s => cases w <;> simp [parseOptStr]
    | nonStr => cases w <;> simp [parseOptStr]

/-- Characterisation of the subject validator. -/
theorem parseSubject_ok_iff (o : Option JVal) (s : String) :
    parseSubject o = .ok s ↔ o = some (.str s) ∧ s ≠ "" := by
  cases o with
  | none => simp [parseSubject]
  | some jv =>
    cases jv with
    | nonStr => simp [parseSubject]
    | str s' =>
      simp only [parseSubject]
      by_cases hs : (1 : Nat) ≤ s'.length
      · rw [if_pos hs]
        rw [one_le_length_iff] at hs
        constructor
        · intro h
          cases h
          exact ⟨rfl, hs⟩
        · rintro ⟨h, -⟩
          cases h
          rfl
      · rw [if_neg hs]
        rw [one_le_length_iff, not_not] at hs
        subst hs
        simp
        rintro rfl
        simp

/-- The optional-slot validator accepts any string image. -/
theorem parseOptStr_map (label : String) (w : Option String) :
    parseOptStr label (w.map JVal.str) = .ok w := by
  cases w <;> rfl

/-- The subject validator accepts any non-empty string. -/
theorem parseSubject_str {s : String} (h : s ≠ "") :
    parseSubject (some (.str s)) = .ok s :=
  (parseSubject_ok_iff _ _).mpr ⟨rfl, h⟩

/-- The raw object that a validated record came from: every slot is the
string image of the validated value. -/
def toRawV (v : ValidatedParams) : RawParams :=
  { subject := some (.str v.subject)
    action := v.action.map JVal.str
    environment := v.environment.map JVal.str
    cameraAngle := v.cameraAngle.map JVal.str
    style := v.style.map JVal.str
    details := v.details.map JVal.str
    lighting := v.lighting.map JVal.str
    mood := v.mood.map JVal.str
    technical := v.technical.map JVal.str
    quality := v.quality.map JVal.str
    negativePrompt := v.negativePrompt.map JVal.str }

/-- Full characterisation of the zod parse of the merged object: it
succeeds exactly on raw objects all of whose present slots are strings
with a non-empty subject, and then the validated record is the evident
one. -/
theorem parsePromptParams_ok_iff (p : RawParams) (v : ValidatedParams) :
    parsePromptParams p = .ok v ↔ p = toRawV v ∧ v.subject ≠ "" := by
  constructor
  · intro h
    unfold parsePromptParams at h
    obtain ⟨s0, a0, e0, c0, st0, d0, l0, m0, tc0, q0, n0⟩ := p
    repeat' split at h
    all_goals (try cases h)
    simp_all [parseSubject_ok_iff, parseOptStr_ok_iff, toRawV]
  · rintro ⟨rfl, hs⟩
    simp [parsePromptParams, toRawV, parseOptStr_map, parseSubject_str hs]

/-! Spec-side definitions for comparison with the code. -/

/-- Modelled from the spec (claim C1 wording): the claimed per-slot
resolution rule of the merge — the override value is used if it is
present and non-empty; otherwise the template default value for the slot
is used; otherwise the slot is absent. -/
def claimedResolveSlot (override dflt : Option String) : Option String :=
  match override with
  | some s => if s ≠ "" then some s else dflt
  | none => dflt

/-- Modelled from the amended claim: the override value is used whenever
the slot key is present in the override set, even when its value is the
empty string; otherwise the template default value; otherwise the slot is
absent. -/
def amendedResolveSlot (override dflt : Option JVal) : Option JVal :=
  match override with
  | some v => some v
  | none => dflt

/-- A slot value that is either absent or a non-empty string (the
data-model invariant the spec places on resolved parameter sets). -/
def nonEmptyOpt : Option String → Bool
  | some s => s ≠ ""
  | none => true

/-- All nine rendered optional slots of a validated record respect the
non-emptiness invariant of the spec data model. -/
def presentSlotsNonEmpty (v : ValidatedParams) : Bool :=
  nonEmptyOpt v.action && nonEmptyOpt v.environment && nonEmptyOpt v.cameraAngle &&
  nonEmptyOpt v.style && nonEmptyOpt v.details && nonEmptyOpt v.lighting &&
  nonEmptyOpt v.mood && nonEmptyOpt v.technical && nonEmptyOpt v.quality

/-- Modelled from the spec (claim C2 wording): the subject is rendered
first and unlabeled; every other present slot is rendered as the fixed
slot label, a colon-space, and the value, where the label equals the slot
name except that the cameraAngle slot is labeled camera; the components
appear in the fixed slot order. -/
def specComponents (v : ValidatedParams) : List String :=
  v.subject ::
    ([ v.action.map (fun s => "action: " ++ s),
       v.environment.map (fun s => "environment: " ++ s),
       v.cameraAngle.map (fun s => "camera: " ++ s),
       v.style.map (fun s => "style: " ++ s),
       v.details.map (fun s => "details: " ++ s),
       v.lighting.map (fun s => "lighting: " ++ s),
       v.mood.map (fun s => "mood: " ++ s),
       v.technical.map (fun s => "technical: " ++ s),
       v.quality.map (fun s => "quality: " ++ s) ] : List (Option String)).filterMap id

/-- On slots respecting the non-emptiness invariant, the truthiness-based
component of the code coincides with the render-if-present rule of the
spec. -/
theorem jsAndLabel_eq_map (label : String) (o : Option String) (h : nonEmptyOpt o = true) :
    jsAndLabel label o = o.map (fun s => label ++ ": " ++ s) := by
  cases o with
  | none => rfl
  | some s =>
    simp only [nonEmptyOpt, decide_eq_true_eq] at h
    simp [jsAndLabel, h]

/-- The component list of the code equals the component list of the spec
on every validated record respecting the data-model invariant. -/
theorem components_eq_spec (v : ValidatedParams) (hsub : v.subject ≠ "")
    (hne : presentSlotsNonEmpty v = true) :
    components v = specComponents v := by
  simp only [presentSlotsNonEmpty, Bool.and_eq_true] at hne
  obtain ⟨⟨⟨⟨⟨⟨⟨⟨ha, he⟩, hc⟩, hst⟩, hd⟩, hl⟩, hm⟩, ht⟩, hq⟩ := hne
  simp only [components, specComponents, if_neg hsub,
    jsAndLabel_eq_map _ _ ha, jsAndLabel_eq_map _ _ he, jsAndLabel_eq_map _ _ hc,
    jsAndLabel_eq_map _ _ hst, jsAndLabel_eq_map _ _ hd, jsAndLabel_eq_map _ _ hl,
    jsAndLabel_eq_map _ _ hm, jsAndLabel_eq_map _ _ ht, jsAndLabel_eq_map _ _ hq]
  simp [List.filterMap_cons]

/-- Non-string detection on a raw slot value. -/
def isNonStr : Option JVal → Bool
  | some .nonStr => true
  | _ => false

/-- Some slot of the raw object holds a non-string value. -/
def hasNonStringSlot (p : RawParams) : Bool :=
  isNonStr p.subject || isNonStr p.action || isNonStr p.environment || isNonStr p.cameraAngle ||
  isNonStr p.style || isNonStr p.details || isNonStr p.lighting || isNonStr p.mood ||
  isNonStr p.technical || isNonStr p.quality || isNonStr p.negativePrompt

/-- The subject slot of the raw object is missing, a non-string, or the
empty string. -/
def subjectMissingOrEmpty (p : RawParams) : Bool :=
  match p.subject with
  | none => true
  | some (.str s) => s = ""
  | some .nonStr => true

/-- A string image is never a non-string. -/
theorem isNonStr_map (w : Option String) : isNonStr (w.map JVal.str) = false := by
  cases w <;> rfl

/-! Claims C1, C2, C8, C9: the merge and the prompt assembler. -/

/-- C1, counterexample: at a present-but-empty action override with a
template default action of painting, the claimed resolution rule yields
the template default, but the merge of generatePrompt keeps the empty
override, and the produced prompt omits the action slot entirely. -/
theorem c1_counterexample :
    claimedResolveSlot (some "") (some "painting") = some "painting" ∧
    (mergedParams { subject := some (.str "cat"), action := some (.str "") }
        (some { subject := some "dog", action := some "painting" })).action =
      some (.str "") ∧
    generatePrompt { subject := some (.str "cat"), action := some (.str "") }
        (some { subject := some "dog", action := some "painting" }) =
      .ok { prompt := "cat" } := by
  decide

/-- C1, amended: the merge performed by generatePrompt resolves each of
the eleven slots by the override value whenever the slot key is present
in the override set, even when its value is the empty string; otherwise
by the template default; otherwise the slot is absent. -/
theorem c1_amended_slotwise_merge (params : RawParams) (t : TemplateParameters) :
    (mergedParams params (some t)).subject =
      amendedResolveSlot params.subject (t.subject.map JVal.str) ∧
    (mergedParams params (some t)).action =
      amendedResolveSlot params.action (t.action.map JVal.str) ∧
    (mergedParams params (some t)).environment =
      amendedResolveSlot params.environment (t.environment.map JVal.str) ∧
    (mergedParams params (some t)).cameraAngle =
      amendedResolveSlot params.cameraAngle (t.cameraAngle.map JVal.str) ∧
    (mergedParams params (some t)).style =
      amendedResolveSlot params.style (t.style.map JVal.str) ∧
    (mergedParams params (some t)).details =
      amendedResolveSlot params.details (t.details.map JVal.str) ∧
    (mergedParams params (some t)).lighting =
      amendedResolveSlot params.lighting (t.lighting.map JVal.str) ∧
    (mergedParams params (some t)).mood =
      amendedResolveSlot params.mood (t.mood.map JVal.str) ∧
    (mergedParams params (some t)).technical =
      amendedResolveSlot params.technical (t.technical.map JVal.str) ∧
    (mergedParams params (some t)).quality =
      amendedResolveSlot params.quality (t.quality.map JVal.str) ∧
    (mergedParams params (some t)).negativePrompt =
      amendedResolveSlot params.negativePrompt (t.negativePrompt.map JVal.str) :=
  ⟨rfl, rfl, rfl, rfl, rfl, rfl, rfl, rfl, rfl, rfl, rfl⟩

/-- C2: on every validated parameter set with a non-empty subject whose
present slots are non-empty, generatePrompt renders the subject first and
unlabeled, renders every other present slot with its fixed label (camera
for cameraAngle, the slot name for all others), and joins the components
with a comma-space separator in the fixed slot order. -/
theorem c2_fixed_order_rendering (p : RawParams) (v : ValidatedParams)
    (hparse : parsePromptParams p = .ok v)
    (hsub : v.subject ≠ "")
    (hne : presentSlotsNonEmpty v = true) :
    ∃ r, generatePrompt p none = .ok r ∧
      r.prompt = String.intercalate ", " (specComponents v) := by
  unfold generatePrompt
  simp only [mergedParams]
  rw [hparse]
  exact ⟨_, rfl, by simp [components_eq_spec v hsub hne]⟩

/-- C2, witness at the ordering example of the spec. -/
theorem c2_witness :
    parsePromptParams
        { subject := some (.str "X"), style := some (.str "Y"), mood := some (.str "Z") } =
      .ok { subject := "X", style := some "Y", mood := some "Z" } ∧
    ∃ r, generatePrompt
        { subject := some (.str "X"), style := some (.str "Y"), mood := some (.str "Z") } none =
        .ok r ∧
      r.prompt = String.intercalate ", "
        (specComponents { subject := "X", style := some "Y", mood := some "Z" }) :=
  ⟨by decide,
   c2_fixed_order_rendering _ _ (by decide) (by decide) (by decide)⟩

/-- C8, counterexample: a present-but-empty optional slot does not make
generatePrompt fail; the empty action slot passes validation and the call
succeeds, producing a prompt. -/
theorem c8_counterexample :
    generatePrompt { subject := some (.str "cat"), action := some (.str "") } none =
      .ok { prompt := "cat" } := by
  decide

/-- C8, amended: validation of the merged parameter set happens before
any rendering: a merged set with any non-string slot value, or with a
missing, non-string or empty subject, makes generatePrompt fail with a
validation error carrying the zod issue kind, and no prompt is produced;
present-but-empty optional slots, however, pass validation and are
silently skipped during rendering. -/
theorem c8_amended_validation (params : RawParams) (template : Option TemplateParameters)
    (h : hasNonStringSlot (mergedParams params template) = true ∨
         subjectMissingOrEmpty (mergedParams params template) = true) :
    ∃ zi : ZodIssue,
      generatePrompt params template =
        .error ("提示词生成参数验证失败: " ++ zodIssueText zi) := by
  cases hv : parsePromptParams (mergedParams params template) with
  | error zi =>
    refine ⟨zi, ?_⟩
    unfold generatePrompt
    rw [hv]
  | ok v =>
    exfalso
    obtain ⟨hraw, hsub⟩ := (parsePromptParams_ok_iff _ _).mp hv
    rw [hraw] at h
    rcases h with h | h
    · simp [hasNonStringSlot, toRawV, isNonStr_map, isNonStr] at h
    · simp only [subjectMissingOrEmpty, toRawV, decide_eq_true_eq] at h
      exact hsub h

/-- C8 amended, witness: a non-string action slot fails validation. -/
theorem c8_amended_witness :
    (hasNonStringSlot
        (mergedParams { subject := some (.str "cat"), action := some JVal.nonStr } none) = true ∨
     subjectMissingOrEmpty
        (mergedParams { subject := some (.str "cat"), action := some JVal.nonStr } none) = true) ∧
    ∃ zi : ZodIssue,
      generatePrompt { subject := some (.str "cat"), action := some JVal.nonStr } none =
        .error ("提示词生成参数验证失败: " ++ zodIssueText zi) :=
  ⟨Or.inl (by decide), c8_amended_validation _ _ (Or.inl (by decide))⟩

/-- C9: when the negative prompt slot is present and non-empty, the
result returns it as the separate negativePrompt field, and the joined
prompt string is computed without it: removing the slot from the input
leaves the prompt unchanged. -/
theorem c9_negative_prompt_separation (p : RawParams) (s : String) (r : PromptResult)
    (hnp : p.negativePrompt = some (.str s))
    (hs : s ≠ "")
    (h : generatePrompt p none = .ok r) :
    r.negativePrompt = some s ∧
    generatePrompt { p with negativePrompt := none } none =
      .ok { prompt := r.prompt, negativePrompt := none } := by
  unfold generatePrompt at h ⊢
  simp only [mergedParams] at h ⊢
  cases hv : parsePromptParams p with
  | error zi =>
    rw [hv] at h
    cases h
  | ok v =>
    rw [hv] at h
    simp only [] at h
    obtain ⟨hraw, hsub⟩ := (parsePromptParams_ok_iff p v).mp hv
    have hvnp : v.negativePrompt = some s := by
      rw [hraw] at hnp
      simp only [toRawV] at hnp
      cases hvn : v.negativePrompt with
      | none => rw [hvn] at hnp; cases hnp
      | some x =>
        rw [hvn] at hnp
        simp only [Option.map_some', Option.some.injEq, JVal.str.injEq] at hnp
        rw [hnp]
    rw [hvnp] at h
    simp only [if_neg hs] at h
    have hr := Except.ok.inj h
    subst hr
    refine ⟨rfl, ?_⟩
    have hv' : parsePromptParams { p with negativePrompt := none } =
        .ok { v with negativePrompt := none } := by
      apply (parsePromptParams_ok_iff _ _).mpr
      refine ⟨?_, hsub⟩
      rw [hraw]
      rfl
    rw [hv']
    rfl

/-- C9, witness. -/
theorem c9_witness :
    generatePrompt
        { subject := some (.str "cat"), negativePrompt := some (.str "blurry") } none =
      .ok { prompt := "cat", negativePrompt := some "blurry" } ∧
    (({ prompt := "cat", negativePrompt := some "blurry" } : PromptResult).negativePrompt =
        some "blurry" ∧
      generatePrompt ({ subject := some (.str "cat") } : RawParams) none =
        .ok { prompt := "cat", negativePrompt := none }) := by
  refine ⟨by decide, ?_⟩
  exact c9_negative_prompt_separation
    { subject := some (.str "cat"), negativePrompt := some (.str "blurry") }
    "blurry" { prompt := "cat", negativePrompt := some "blurry" }
    (by decide) (by decide) (by decide)

/-! Claim C3: capability negotiation. -/

/-- The declaration does not fall in the throwing shape: its sampling
value, when present, is an array or carries a callable includes probe. -/
def hasCallableProbe : Option ClientCapabilities → Bool
  | some ⟨some (.obj none _ _)⟩ => false
  | _ => true

/-- The declaration is absent or declares no sampling value at all. -/
def declaresNoSampling : Option ClientCapabilities → Bool
  | none => true
  | some ⟨none⟩ => true
  | _ => false

/-- C3, counterexample: a sampling declaration that is an object without
a callable includes member — the shape an empty-object declaration takes —
makes both negotiation functions throw a TypeError instead of
classifying the declaration as non-support. -/
theorem c3_counterexample :
    checkDetailedSamplingCapabilities (some { sampling := some (.obj none none none) }) =
      .error "TypeError: sampling.includes is not a function" ∧
    checkSamplingSupport (some { sampling := some (.obj none none none) }) =
      .error "TypeError: sampling.includes is not a function" :=
  ⟨rfl, rfl⟩

/-- C3, amended: on every declaration whose sampling value, if present,
is an array or exposes a callable includes probe, negotiation returns
without throwing, and an absent declaration (missing client, missing
capabilities, or missing sampling value) classifies as full non-support;
a present object-shaped sampling value without a callable includes probe,
however, makes negotiation throw a TypeError. -/
theorem c3_amended_negotiation (caps : Option ClientCapabilities)
    (h : hasCallableProbe caps = true) :
    (∃ r, checkDetailedSamplingCapabilities caps = .ok r ∧
       (declaresNoSampling caps = true →
         r = { supportsCreateMessage := false, supportsImages := false })) ∧
    (∃ b, checkSamplingSupport caps = .ok b ∧
       (declaresNoSampling caps = true → b = false)) := by
  match caps, h with
  | none, _ =>
    exact ⟨⟨_, rfl, fun _ => rfl⟩, ⟨_, rfl, fun _ => rfl⟩⟩
  | some ⟨none⟩, _ =>
    exact ⟨⟨_, rfl, fun _ => rfl⟩, ⟨_, rfl, fun _ => rfl⟩⟩
  | some ⟨some (.arr features)⟩, _ =>
    exact ⟨⟨_, rfl, fun hd => Bool.noConfusion hd⟩, ⟨_, rfl, fun hd => Bool.noConfusion hd⟩⟩
  | some ⟨some (.obj (some probe) mt ms)⟩, _ =>
    exact ⟨⟨_, rfl, fun hd => Bool.noConfusion hd⟩, ⟨_, rfl, fun hd => Bool.noConfusion hd⟩⟩

/-- C3 amended, witness at the absent declaration. -/
theorem c3_amended_witness :
    hasCallableProbe none = true ∧
    ((∃ r, checkDetailedSamplingCapabilities none = .ok r ∧
        (declaresNoSampling none = true →
          r = { supportsCreateMessage := false, supportsImages := false })) ∧
     (∃ b, checkSamplingSupport none = .ok b ∧
        (declaresNoSampling none = true → b = false))) :=
  ⟨rfl, c3_amended_negotiation none rfl⟩

/-! Claims C4 to C7: the generateImage handler. -/

/-- A stored template whose default subject is the empty string, used to
exercise the missing-subject path of the template branch. -/
def templateWithEmptySubject : Template :=
  { id := "tpl-1"
    name := "Empty subject template"
    description := ""
    category := .techDoc
    parameters := { subject := some "" }
    version := 1
    createdAt := 0
    updatedAt := 0 }

/-- C4, counterexample: with a stored template carrying no usable default
subject and no caller subject, the request does not fail with the
INVALID_PARAMETERS kind: the inner throw is swallowed by the
template-loading catch and rewrapped, so the surfaced kind is
INTERNAL_ERROR (a test of the repository itself asserts this wrapping). -/
theorem c4_counterexample :
    generateImageHandler [templateWithEmptySubject] none
        { templateId := some "tpl-1" } none =
      (.error { type := .INTERNAL_ERROR, message := "加载模板参数失败"
                details := some (.imageGenError .INVALID_PARAMETERS
                  "必须提供主体内容 (subject) 参数") }, 0) ∧
    ImageGenerationErrorType.INTERNAL_ERROR ≠ ImageGenerationErrorType.INVALID_PARAMETERS := by
  exact ⟨by decide, by decide⟩

/-- C4, amended: when the templateId resolves to a stored template and
neither the caller subject nor the template default subject is truthy,
the request fails with an INTERNAL_ERROR whose details wrap the
INVALID_PARAMETERS ImageGenerationError raised for the missing subject,
and no outbound sampling call is issued. -/
theorem c4_amended_wrapped_missing_subject (store : List Template)
    (serverSampling : Option SamplingFn) (p : GenParams)
    (caps : Option ClientCapabilities) (tid : String) (t : Template)
    (hid : p.templateId = some tid)
    (hget : getTemplateById store tid p.templateVersion = .ok t)
    (hsubj : jsTruthy p.subject = false)
    (htsubj : jsTruthy t.parameters.subject = false) :
    generateImageHandler store serverSampling p caps =
      (.error { type := .INTERNAL_ERROR, message := "加载模板参数失败"
                details := some (.imageGenError .INVALID_PARAMETERS
                  "必须提供主体内容 (subject) 参数") }, 0) := by
  unfold generateImageHandler resolveTemplateStep
  rw [hid]
  simp only []
  rw [hget]
  simp [hsubj, htsubj]

/-- C4 amended, witness. -/
theorem c4_amended_witness :
    ({ templateId := some "tpl-1" } : GenParams).templateId = some "tpl-1" ∧
    getTemplateById [templateWithEmptySubject] "tpl-1"
        ({ templateId := some "tpl-1" } : GenParams).templateVersion =
      .ok templateWithEmptySubject ∧
    generateImageHandler [templateWithEmptySubject] none
        { templateId := some "tpl-1" } none =
      (.error { type := .INTERNAL_ERROR, message := "加载模板参数失败"
                details := some (.imageGenError .INVALID_PARAMETERS
                  "必须提供主体内容 (subject) 参数") }, 0) :=
  ⟨rfl, by decide,
   c4_amended_wrapped_missing_subject [templateWithEmptySubject] none
     { templateId := some "tpl-1" } none "tpl-1" templateWithEmptySubject
     rfl (by decide) (by decide) (by decide)⟩

/-- C7: with no templateId and no truthy subject override, the request
fails with the INVALID_PARAMETERS kind, whatever the declared capability
profile and whatever the server sampling wiring, and no outbound sampling
call is issued. -/
theorem c7_missing_subject_invalid_parameters (store : List Template)
    (serverSampling : Option SamplingFn) (p : GenParams)
    (caps : Option ClientCapabilities)
    (hid : p.templateId = none)
    (hsubj : jsTruthy p.subject = false) :
    generateImageHandler store serverSampling p caps =
      (.error { type := .INVALID_PARAMETERS
                message := "必须提供主体内容 (subject) 参数或者有效的模板ID" }, 0) := by
  unfold generateImageHandler resolveTemplateStep
  rw [hid]
  simp [hsubj]

/-- C7, witness at the empty request of the spec scenario. -/
theorem c7_witness :
    ({ } : GenParams).templateId = none ∧
    jsTruthy ({ } : GenParams).subject = false ∧
    generateImageHandler [] none { } none =
      (.error { type := .INVALID_PARAMETERS
                message := "必须提供主体内容 (subject) 参数或者有效的模板ID" }, 0) :=
  ⟨rfl, by decide,
   c7_missing_subject_invalid_parameters [] none { } none rfl (by decide)⟩

/-- C5: when the request passes template resolution and prompt
generation, sampling support is negotiated, and the single outbound
createMessage call rejects, the whole request fails with SAMPLING_FAILED
wrapping the underlying cause after exactly one outbound call; it is not
downgraded to the text-only fallback. -/
theorem c5_sampling_failure_is_hard (store : List Template)
    (createMessage : SamplingFn) (p : GenParams) (caps : Option ClientCapabilities)
    (tOpt : Option Template) (pr : PromptResult) (msg : String)
    (hres : resolveTemplateStep store p = .ok tOpt)
    (hgen : generatePrompt (injectSubject p tOpt).toRaw
        (tOpt.map (fun t => t.parameters)) = .ok pr)
    (hsup : checkSamplingSupport caps = .ok true)
    (hfail : createMessage (buildSamplingRequest pr (injectSubject p tOpt)) = .error msg) :
    generateImageHandler store (some createMessage) p caps =
      (.error { type := .SAMPLING_FAILED, message := "图片生成失败"
                details := some (.jsError ("Sampling 请求处理失败: " ++ msg)) }, 1) := by
  unfold generateImageHandler
  rw [hres]
  simp only []
  rw [hgen]
  simp only []
  rw [hsup]
  simp [handleSamplingRequest, hfail]

/-- The capability declaration of a fully supporting client, probe form. -/
def fullSupportCaps : Option ClientCapabilities :=
  some { sampling := some (.obj (some (fun _ => true)) none none) }

/-- A createMessage capability that always rejects. -/
def alwaysFailingSampling : SamplingFn := fun _ => .error "boom"

/-- C5, witness: a client with full support and a rejecting gateway. -/
theorem c5_witness :
    resolveTemplateStep [] { subject := some "cat" } = .ok none ∧
    generatePrompt (injectSubject { subject := some "cat" } none).toRaw none =
      .ok { prompt := "cat" } ∧
    checkSamplingSupport fullSupportCaps = .ok true ∧
    generateImageHandler [] (some alwaysFailingSampling) { subject := some "cat" }
        fullSupportCaps =
      (.error { type := .SAMPLING_FAILED, message := "图片生成失败"
                details := some (.jsError ("Sampling 请求处理失败: " ++ "boom")) }, 1) :=
  ⟨by decide, by decide, rfl,
   c5_sampling_failure_is_hard [] alwaysFailingSampling { subject := some "cat" }
     fullSupportCaps none { prompt := "cat" } "boom"
     (by decide) (by decide) rfl rfl⟩

/-- injectSubject only rewrites the subject slot; the generation
parameters pass through unchanged. -/
theorem injectSubject_preserves_generation_parameters (p : GenParams)
    (tOpt : Option Template) :
    (injectSubject p tOpt).width = p.width ∧
    (injectSubject p tOpt).height = p.height ∧
    (injectSubject p tOpt).samplingSteps = p.samplingSteps := by
  unfold injectSubject
  cases tOpt with
  | none => exact ⟨rfl, rfl, rfl⟩
  | some t =>
    simp only []
    by_cases h : jsTruthy p.subject = false ∧ jsTruthy t.parameters.subject = true
    · rw [if_pos h]
      exact ⟨rfl, rfl, rfl⟩
    · rw [if_neg h]
      exact ⟨rfl, rfl, rfl⟩

/-- C6: when the request passes template resolution and prompt
generation, then with a negotiated profile without sampling support the
handler issues zero outbound createMessage calls and returns a text-only
response whose structured content carries the assembled prompt, the
negative prompt, the generation parameters, the template provenance and
an explicit supportsSampling false flag; with a negotiated profile with
sampling support and a wired createMessage capability it issues exactly
one outbound call. -/
theorem c6_gateway_branch_exclusivity (store : List Template)
    (serverSampling : Option SamplingFn) (p : GenParams)
    (caps : Option ClientCapabilities) (tOpt : Option Template) (pr : PromptResult)
    (hres : resolveTemplateStep store p = .ok tOpt)
    (hgen : generatePrompt (injectSubject p tOpt).toRaw
        (tOpt.map (fun t => t.parameters)) = .ok pr) :
    (checkSamplingSupport caps = .ok false →
      ∃ resp, generateImageHandler store serverSampling p caps = (.ok resp, 0) ∧
        resp.content = [ContentItem.text (fallbackText pr (injectSubject p tOpt) tOpt)] ∧
        resp.structuredContent =
          { imageUrl := none
            prompt := pr.prompt
            negativePrompt := pr.negativePrompt
            parameters := { width := p.width, height := p.height
                            samplingSteps := p.samplingSteps }
            usedTemplate := usedTemplateOf tOpt
            supportsSampling := some false }) ∧
    (checkSamplingSupport caps = .ok true →
      ∀ createMessage : SamplingFn, serverSampling = some createMessage →
        (generateImageHandler store serverSampling p caps).2 = 1) := by
  obtain ⟨hw, hh, hst⟩ := injectSubject_preserves_generation_parameters p tOpt
  constructor
  · intro hsup
    refine ⟨fallbackResponse pr (injectSubject p tOpt) tOpt, ?_, rfl, ?_⟩
    · unfold generateImageHandler
      rw [hres]
      simp only []
      rw [hgen]
      simp only []
      rw [hsup]
      rfl
    · simp [fallbackResponse, hw, hh, hst]
  · intro hsup createMessage hserv
    subst hserv
    unfold generateImageHandler
    rw [hres]
    simp only []
    rw [hgen]
    simp only []
    rw [hsup]
    simp only [if_pos]
    cases hc : createMessage (buildSamplingRequest pr (injectSubject p tOpt)) with
    | error msg => simp [handleSamplingRequest, hc]
    | ok resp =>
      simp only [handleSamplingRequest, hc]
      by_cases himg : (resp.content.type != "image" || !jsTruthy resp.content.data) = true
      · rw [if_pos himg]
      · rw [if_neg himg]

/-- C6, witness on the degraded branch: no declared support, zero calls,
text-only response with the expected structured content. -/
theorem c6_witness :
    resolveTemplateStep [] { subject := some "a happy dog" } = .ok none ∧
    generatePrompt (injectSubject { subject := some "a happy dog" } none).toRaw none =
      .ok { prompt := "a happy dog" } ∧
    checkSamplingSupport none = .ok false ∧
    ∃ resp, generateImageHandler [] none { subject := some "a happy dog" } none =
        (.ok resp, 0) ∧
      resp.content = [ContentItem.text
        (fallbackText { prompt := "a happy dog" }
          (injectSubject { subject := some "a happy dog" } none) none)] ∧
      resp.structuredContent =
        { imageUrl := none
          prompt := "a happy dog"
          negativePrompt := none
          parameters := { width := 512, height := 512, samplingSteps := 20 }
          usedTemplate := none
          supportsSampling := some false } :=
  ⟨by decide, by decide, rfl,
   (c6_gateway_branch_exclusivity [] none { subject := some "a happy dog" } none
      none { prompt := "a happy dog" } (by decide) (by decide)).1 rfl⟩

/-! Claim C10: the updateTemplate subject carry-over. -/

/-- The parameters field produced by the update step only depends on the
supplied parameters object and the stored parameters. -/
theorem applyUpdate_parameters (t : Template) (args : UpdateArgs) (now : Nat) :
    (applyUpdate t args now).parameters =
      match args.parameters with
      | some ps =>
        if jsTruthy ps.subject = false ∧ jsTruthy t.parameters.subject = true then
          { ps with subject := t.parameters.subject }
        else ps
      | none => t.parameters := by
  unfold applyUpdate
  cases args.name <;> cases args.description <;> cases args.category <;>
    cases args.parameters <;> cases args.isActive <;> simp only [] <;>
    first
    | rfl
    | (split <;> rfl)

/-- C10: on a stored template with a truthy default subject, an update
whose supplied parameters object lacks a truthy subject carries the
stored subject into the new parameters, and every update leaves the
stored subject present and non-empty. -/
theorem c10_update_preserves_subject (t : Template) (args : UpdateArgs) (now : Nat)
    (h : jsTruthy t.parameters.subject = true) :
    (∀ ps, args.parameters = some ps → jsTruthy ps.subject = false →
      (applyUpdate t args now).parameters.subject = t.parameters.subject) ∧
    ∃ s, (applyUpdate t args now).parameters.subject = some s ∧ s ≠ "" := by
  obtain ⟨s, hsome, hne⟩ := (jsTruthy_eq_true_iff _).mp h
  constructor
  · intro ps hps hfalse
    rw [applyUpdate_parameters, hps]
    simp only []
    rw [if_pos ⟨hfalse, h⟩]
  · rw [applyUpdate_parameters]
    cases hp : args.parameters with
    | none => exact ⟨s, hsome, hne⟩
    | some ps =>
      simp only []
      by_cases hcond : jsTruthy ps.subject = false ∧ jsTruthy t.parameters.subject = true
      · rw [if_pos hcond]
        exact ⟨s, hsome, hne⟩
      · rw [if_neg hcond]
        have hA : jsTruthy ps.subject = true := by
          cases hA : jsTruthy ps.subject with
          | false => exact absurd ⟨hA, h⟩ hcond
          | true => rfl
        exact (jsTruthy_eq_true_iff _).mp hA

/-- C10, witness: an update that omits the subject keeps the stored one. -/
theorem c10_witness :
    jsTruthy
      ({ templateWithEmptySubject with
          parameters := { subject := some "a cat" } } : Template).parameters.subject = true ∧
    ((∀ ps, ({ id := "tpl-1", parameters := some { action := some "running" } } :
          UpdateArgs).parameters = some ps → jsTruthy ps.subject = false →
        (applyUpdate { templateWithEmptySubject with parameters := { subject := some "a cat" } }
            { id := "tpl-1", parameters := some { action := some "running" } } 7).parameters.subject =
          ({ templateWithEmptySubject with
              parameters := { subject := some "a cat" } } : Template).parameters.subject) ∧
     ∃ s, (applyUpdate { templateWithEmptySubject with parameters := { subject := some "a cat" } }
            { id := "tpl-1", parameters := some { action := some "running" } } 7).parameters.subject =
          some s ∧ s ≠ "") :=
  ⟨by decide,
   c10_update_preserves_subject
     { templateWithEmptySubject with parameters := { subject := some "a cat" } }
     { id := "tpl-1", parameters := some { action := some "running" } } 7 (by decide)⟩

end ImagePromptMcp
